import Mathlib

/-!
Verification of the evaluation and monitoring pipeline of an AI-agent
observability platform for text-to-SQL agents.

The definitions below are shallow embeddings of the program's source files:

* `DriftDetector` — src/monitoring/drift_detector.py
* `DriftLayer`, `EvaluationManager` — src/evaluation/layers/drift.py, manager.py
* `Evaluator` — src/evaluation/evaluator.py
* `SemanticMatcher` — src/evaluation/semantic_match.py
* `ResultComparator` — src/evaluation/output_validators/result_comparator.py
* `StructuralValidator` — src/evaluation/validators.py
* `Poller` — src/agent_platform/poller.py
* `SdkIngest` — src/api/main.py (the SDK telemetry ingest endpoint and the
  background pipeline `process_ingest_background`)

Numeric scores are modelled as rationals (the Python code uses floats; every
constant in the claims is exactly representable).  Database calls, the LLM,
and the embedding model are external effects: their outcomes enter the
embedded functions as explicit parameters, and every theorem quantifies over
all outcomes they can produce.  Persistence effects (rows written, alerts
sent, classifier invocations) are returned as explicit values.
-/

/-! ### Character-level string helpers

The Python code manipulates strings with `.upper()`, `.lower()`, `.strip()`
and substring search.  They are modelled on the character lists underlying
`String` so that every operation reduces in the kernel. -/

/-- Python `s.upper()`. -/
def upperS (s : String) : String := ⟨s.data.map Char.toUpper⟩

/-- Python `s.lower()`. -/
def lowerS (s : String) : String := ⟨s.data.map Char.toLower⟩

/-- Python `s.strip()`: remove leading and trailing whitespace. -/
def trimS (s : String) : String :=
  ⟨((s.data.dropWhile Char.isWhitespace).reverse.dropWhile Char.isWhitespace).reverse⟩

/-- Whether `needle` occurs at the start of `hay`. -/
def isPrefB : List Char → List Char → Bool
  | [], _ => true
  | _ :: _, [] => false
  | a :: as, b :: bs => a == b && isPrefB as bs

/-- Python `needle in hay` on strings, as character lists. -/
def containsSub (needle : List Char) : List Char → Bool
  | [] => needle.isEmpty
  | c :: cs => isPrefB needle (c :: cs) || containsSub needle cs

/-- Index of the first occurrence of `c` (length of the list if absent). -/
def firstIdx (c : Char) : List Char → ℕ
  | [] => 0
  | x :: xs => if x = c then 0 else firstIdx c xs + 1

/-! ### SQL result values

Values appearing in executed result sets.  The comparator in
result_comparator.py normalizes ints, floats and Decimals to one numeric
type, trims strings, and keeps NULL distinct from everything else; the
temporal and bytes variants it also supports are not exercised by any claim
and are omitted from the value type. -/

/-- A cell of an executed SQL result set. -/
inductive SqlValue
  | vNull
  | vNum (x : ℚ)
  | vStr (s : String)
  deriving DecidableEq, Repr

/-! ### Result comparator — src/evaluation/output_validators/result_comparator.py -/

/-- Result of comparing two query result sets (`ComparisonResult`).  The
Python field `match` is a Lean keyword and is rendered `isMatch`. -/
structure ComparisonResult where
  isMatch : Bool
  score : ℚ
  schemaMatch : Bool
  rowCountMatch : Bool
  contentMatchRate : ℚ
  deriving DecidableEq, Repr

namespace ResultComparator

/-- `col.lower().strip()` as used in `_compare_schemas`. -/
def normalizeColumn (c : String) : String := trimS (lowerS c)

/-- Translated from `_compare_schemas`: Python builds a `set` of the
lowercased, stripped column names from each list and compares the two sets
(duplicates collapse). -/
def compareSchemas (cols1 cols2 : List String) : Bool :=
  decide ((cols1.map normalizeColumn).toFinset = (cols2.map normalizeColumn).toFinset)

/-- Translated from `_detect_ordering`: uppercase the SQL; if it has no
closing parenthesis search the whole string for `ORDER BY`, otherwise search
only from the last closing parenthesis on. -/
def detectOrdering (sql : String) : Bool :=
  if sql.data.isEmpty then false
  else
    let up := (upperS sql).data
    let searchIn :=
      if ')' ∈ up then (up.reverse.take (firstIdx ')' up.reverse + 1)).reverse
      else up
    containsSub "ORDER BY".data searchIn

/-- Translated from `_values_equal`: NULL equals only NULL, numbers compare
within `eps`, strings compare after stripping, mixed types are unequal. -/
def valuesEqual (eps : ℚ) : SqlValue → SqlValue → Bool
  | .vNull, .vNull => true
  | .vNum x, .vNum y => decide (|x - y| < eps)
  | .vStr a, .vStr b => trimS a == trimS b
  | _, _ => false

/-- Translated from `_rows_equal`. -/
def rowsEqual (eps : ℚ) (r1 r2 : List SqlValue) : Bool :=
  r1.length == r2.length && (List.zipWith (valuesEqual eps) r1 r2).all id

/-- Translated from `_compare_ordered`: fraction of positionally matching
rows; empty inputs count as a full match. -/
def compareOrdered (eps : ℚ) (rows1 rows2 : List (List SqlValue)) : ℚ :=
  if rows1.length ≠ rows2.length then 0
  else if rows1.isEmpty then 1
  else ((List.zipWith (rowsEqual eps) rows1 rows2).count true : ℚ) / rows1.length

/-- Ordering on cell values used by `_make_sortable`: tag order is
NULL < numeric < string, ties compare the values. -/
def valueKeyLe : SqlValue → SqlValue → Bool
  | .vNull, _ => true
  | _, .vNull => false
  | .vNum x, .vNum y => decide (x ≤ y)
  | .vNum _, .vStr _ => true
  | .vStr _, .vNum _ => false
  | .vStr a, .vStr b => decide (a ≤ b)

/-- Lexicographic comparison of whole rows, mirroring Python tuple
comparison of the `_make_sortable` keys. -/
def rowKeyLe : List SqlValue → List SqlValue → Bool
  | [], _ => true
  | _ :: _, [] => false
  | a :: as, b :: bs => if a = b then rowKeyLe as bs else valueKeyLe a b

/-- Insert into a sorted list (used to model Python `sorted`). -/
def insertRow {α : Type} (le : α → α → Bool) (x : α) : List α → List α
  | [] => [x]
  | y :: ys => if le x y then x :: y :: ys else y :: insertRow le x ys

/-- Python `sorted` with a key, as an insertion sort. -/
def sortRows {α : Type} (le : α → α → Bool) : List α → List α
  | [] => []
  | x :: xs => insertRow le x (sortRows le xs)

/-- Translated from `_compare_unordered`: sort both result sets by all
columns, then compare positionally.  (The Python `TypeError` fallback to set
comparison cannot occur here: `rowKeyLe` is total on the typed values.) -/
def compareUnordered (eps : ℚ) (rows1 rows2 : List (List SqlValue)) : ℚ :=
  if rows1.length ≠ rows2.length then 0
  else
    let s1 := sortRows rowKeyLe rows1
    let s2 := sortRows rowKeyLe rows2
    if rows1.isEmpty then 1
    else ((List.zipWith (rowsEqual eps) s1 s2).count true : ℚ) / rows1.length

/-- Translated from `ResultComparator.compare`: schema gate (score 0.1),
row-count gate (score 0.3), then the content-match-rate ladder
1.0 / 0.95 / 0.80 / raw rate. -/
def compare (eps : ℚ) (cols1 : List String) (rows1 : List (List SqlValue))
    (cols2 : List String) (rows2 : List (List SqlValue)) (sql1 sql2 : String) :
    ComparisonResult :=
  if !compareSchemas cols1 cols2 then
    { isMatch := false, score := 1/10, schemaMatch := false,
      rowCountMatch := false, contentMatchRate := 0 }
  else if rows1.length ≠ rows2.length then
    { isMatch := false, score := 3/10, schemaMatch := true,
      rowCountMatch := false, contentMatchRate := 0 }
  else
    let orderingMatters := detectOrdering sql1 || detectOrdering sql2
    let rate :=
      if orderingMatters then compareOrdered eps rows1 rows2
      else compareUnordered eps rows1 rows2
    if 99/100 ≤ rate then
      { isMatch := true, score := 1, schemaMatch := true,
        rowCountMatch := true, contentMatchRate := rate }
    else if 95/100 ≤ rate then
      { isMatch := true, score := 95/100, schemaMatch := true,
        rowCountMatch := true, contentMatchRate := rate }
    else if 4/5 ≤ rate then
      { isMatch := false, score := 4/5, schemaMatch := true,
        rowCountMatch := true, contentMatchRate := rate }
    else
      { isMatch := false, score := rate, schemaMatch := true,
        rowCountMatch := true, contentMatchRate := rate }

/-- The schema-match relation in the words of the claim being checked:
equality of the column-name multisets after lowercasing and trimming.  This
follows the specification text, not the source; it exists only to be
compared against the implementation's set-based `compareSchemas`. -/
def specSchemaMatchMultisets (cols1 cols2 : List String) : Bool :=
  decide (List.Perm (cols1.map normalizeColumn) (cols2.map normalizeColumn))

end ResultComparator

/-! ### Drift detector — src/monitoring/drift_detector.py -/

/-- `drift_classification` values written by the detector. -/
inductive DriftClassification
  | normal
  | medium
  | high
  | noBaseline
  | dimensionMismatch
  deriving DecidableEq, BEq, Repr

/-- The result dict built by `DriftDetector.detect` (score-relevant fields;
`query_id` and `agent_type` are opaque pass-through strings). -/
structure DriftResult where
  driftScore : ℚ
  driftClassification : DriftClassification
  similarityToBaseline : ℚ
  anomalyFlag : Bool
  deriving DecidableEq, Repr

namespace DriftDetector

/-- Translated from `DriftDetector.detect`.  `baseline` is the stored
centroid returned by `_get_baseline` (`none` when the agent has no baseline
row); `queryEmbedding` is the embedding of the query text.  The cosine
similarity itself is computed by numpy in floating point and enters the
branch structure only as a value, so the embedding takes the similarity
function `sim` as a parameter and the theorems hold for every value it can
return.  The second component of the result is the row handed to
`_store_drift`: the code calls `_store_drift` only on the path that computed
a similarity, and returns early — storing nothing — on the `no_baseline`
and `dimension_mismatch` paths. -/
def detect (sim : List ℚ → List ℚ → ℚ) (mediumThreshold highThreshold : ℚ)
    (baseline : Option (List ℚ)) (queryEmbedding : List ℚ) :
    DriftResult × Option DriftResult :=
  match baseline with
  | none =>
      ({ driftScore := 0, driftClassification := .noBaseline,
         similarityToBaseline := 0, anomalyFlag := false }, none)
  | some b =>
      if queryEmbedding.length ≠ b.length then
        ({ driftScore := 0, driftClassification := .dimensionMismatch,
           similarityToBaseline := 0, anomalyFlag := false }, none)
      else
        let similarity := sim queryEmbedding b
        let cls :=
          if 1 - mediumThreshold ≤ similarity then (DriftClassification.normal, false)
          else if 1 - highThreshold ≤ similarity then (DriftClassification.medium, false)
          else (DriftClassification.high, true)
        let result : DriftResult :=
          { driftScore := 1 - similarity, driftClassification := cls.1,
            similarityToBaseline := similarity, anomalyFlag := cls.2 }
        (result, some result)

end DriftDetector

/-- From `process_ingest_background` in src/api/main.py: the drift stage runs
only when the event status is not "error", and a high-drift alert is sent
exactly when the returned classification is `high`. -/
def highDriftAlertFired (status : String) (r : DriftResult) : Bool :=
  status != "error" && decide (r.driftClassification = .high)

/-! ### Drift layer and heuristic manager — src/evaluation/layers/ -/

namespace DriftLayer

/-- Translated from `DriftLayer.evaluate`: reuse an existing drift score when
provided; otherwise use the detector's `drift_score` (an exception in the
detector, modelled by `detectOutcome = none`, returns 0.5); the quality score
is `max 0 (1 - driftScore)`. -/
def evaluate (existingDriftScore : Option ℚ) (detectOutcome : Option DriftResult) : ℚ :=
  match existingDriftScore with
  | some d => max 0 (1 - d)
  | none =>
      match detectOutcome with
      | some r => max 0 (1 - r.driftScore)
      | none => 1/2

end DriftLayer

/-- Evaluation verdicts stored in `monitoring.evaluations.result`. -/
inductive Verdict
  | PASS
  | FAIL
  | ERROR
  deriving DecidableEq, Repr

/-- Component scores reported by the heuristic path. -/
structure HeuristicComponents where
  structural : ℚ
  intent : ℚ
  pattern : ℚ
  drift : ℚ
  deriving DecidableEq, Repr

/-- Return value of `EvaluationManager.evaluate_heuristic`. -/
structure HeuristicResult where
  finalScore : ℚ
  finalResult : Verdict
  confidence : ℚ
  components : HeuristicComponents
  deriving DecidableEq, Repr

namespace EvaluationManager

/-- Layer weights from `EvaluationManager.__init__` (drift carries no
weight: it is excluded from scoring). -/
def structuralWeight : ℚ := 45/100

/-- Intent layer weight. -/
def intentWeight : ℚ := 30/100

/-- Pattern layer weight. -/
def patternWeight : ℚ := 25/100

/-- Translated from `EvaluationManager.evaluate_heuristic`.  The structural,
intent and pattern layer scores and the drift quality score are produced by
the four layer objects (regex heuristics, the drift detector); they enter
the final computation only as values and are taken as parameters.  The final
score is the weighted sum of the first three layers; the drift quality can
only veto: below 0.1 the evaluation is forced to FAIL with score 0 and
confidence 0. -/
def evaluateHeuristic (threshold structuralScore intentScore patternScore
    driftQualityScore : ℚ) : HeuristicResult :=
  let finalScore := structuralScore * structuralWeight + intentScore * intentWeight +
    patternScore * patternWeight
  let components : HeuristicComponents :=
    { structural := structuralScore, intent := intentScore,
      pattern := patternScore, drift := driftQualityScore }
  if driftQualityScore < 1/10 then
    { finalScore := 0, finalResult := .FAIL, confidence := 0, components }
  else
    { finalScore, finalResult := if threshold ≤ finalScore then .PASS else .FAIL,
      confidence := finalScore, components }

/-- Path B evaluation with the drift layer wired to the detector, as in
`Evaluator.evaluate` calling `EvaluationManager.evaluate_heuristic` with no
precomputed drift score: `DriftLayer.evaluate` invokes
`DriftDetector.detect` and the quality score feeds the veto. -/
def evaluateHeuristicWithDetector (sim : List ℚ → List ℚ → ℚ)
    (mediumThreshold highThreshold threshold structuralScore intentScore
    patternScore : ℚ) (baseline : Option (List ℚ)) (queryEmbedding : List ℚ) :
    HeuristicResult :=
  let dr := (DriftDetector.detect sim mediumThreshold highThreshold baseline queryEmbedding).1
  evaluateHeuristic threshold structuralScore intentScore patternScore
    (DriftLayer.evaluate none (some dr))

end EvaluationManager

/-! ### Structural validator — src/evaluation/validators.py -/

/-- The classifiable error types mapped from the database error class by
`validate_syntax`: the Python strings "SYNTAX_ERROR", "UNDEFINED_TABLE" and
"UNDEFINED_COLUMN".  Any other database error is reported with error type
`None` (modelled as `none` in an `Option` of this type). -/
inductive ExplainErrorType
  | synErr
  | undefinedTable
  | undefinedColumn
  deriving DecidableEq, Repr

/-- Outcome of the EXPLAIN stage (`validate_syntax`), a live database call:
success, or failure with the mapped error type and message. -/
inductive ExplainOutcome
  | ok
  | failed (errorType : Option ExplainErrorType) (message : String)
  deriving DecidableEq, Repr

/-- The dict returned by `StructuralValidator.validate`.  The Python field
`syntax_valid` is rendered `explainValid` (it reports the EXPLAIN stage). -/
structure StructuralValidationResult where
  valid : Bool
  explainValid : Bool
  schemaValid : Bool
  errors : List String
  score : ℚ
  errorType : Option ExplainErrorType
  requiresClassification : Bool
  deriving DecidableEq, Repr

namespace StructuralValidator

/-- Translated from `StructuralValidator.validate`.  `explain` is the
EXPLAIN-stage outcome; `schemaCheck` is the `(is_valid, errors)` pair
returned by the regex stage `validate_schema` (pure, but dependent on the
cached schema, so taken as a parameter).  EXPLAIN failure scores 0 and
requests classification exactly for the three classifiable error types;
EXPLAIN success with a failing schema check scores 0.5; both stages passing
scores 1.0. -/
def validate (explain : ExplainOutcome) (schemaCheck : Bool × List String) :
    StructuralValidationResult :=
  match explain with
  | .failed errorType message =>
      { valid := false, explainValid := false, schemaValid := false,
        errors := [message], score := 0, errorType := errorType,
        requiresClassification := errorType.isSome }
  | .ok =>
      if schemaCheck.1 then
        { valid := true, explainValid := true, schemaValid := true,
          errors := [], score := 1, errorType := none,
          requiresClassification := false }
      else
        { valid := false, explainValid := true, schemaValid := false,
          errors := schemaCheck.2, score := 1/2, errorType := none,
          requiresClassification := false }

end StructuralValidator

/-! ### Evaluator — src/evaluation/evaluator.py -/

/-- What `Evaluator.evaluate` does right after structural validation:
either halt with a stored verdict (and possibly an error-classifier call),
or proceed to the ground-truth paths. -/
inductive StructuralGateOutcome
  | halt (finalResult : Verdict) (finalScore confidence : ℚ)
      (storedEvaluation : Bool) (errorClassifierInvoked : Bool)
  | proceed
  deriving DecidableEq, Repr

namespace Evaluator

/-- Default `EVALUATION_THRESHOLD` from config/settings.py: 0.60. -/
def defaultEvaluationThreshold : ℚ := 60/100

/-- Translated from `Evaluator.evaluate` (the branch on the structural
result): a classifiable error stores a FAIL evaluation with final score 0
and confidence 0, invokes the error classifier when the store returned an
evaluation id (`storeSucceeds`), and returns; a non-classifiable score of 0
returns FAIL without storing or classifying; otherwise evaluation
proceeds. -/
def structuralGate (sv : StructuralValidationResult) (storeSucceeds : Bool) :
    StructuralGateOutcome :=
  if sv.requiresClassification then
    .halt .FAIL 0 0 true storeSucceeds
  else if sv.score = 0 then
    .halt .FAIL 0 0 false false
  else
    .proceed

/-- Translated from `Evaluator._calculate_final_score`.  The result
validation score arrives as `none` for Python `None`; the code treats both
`None` and a score equal to 0.0 as "result validation not available" and
falls back to the legacy three-component weights; only a nonzero score uses
the four-component weights.  Returns (final score, verdict, confidence). -/
def calculateFinalScore (threshold structuralScore semanticScore llmScore
    llmConfidence : ℚ) (resultValidationScore : Option ℚ) : ℚ × Verdict × ℚ :=
  let finalScore :=
    match resultValidationScore with
    | none =>
        60/100 * structuralScore + 10/100 * semanticScore + 30/100 * llmScore
    | some rv =>
        if rv = 0 then
          60/100 * structuralScore + 10/100 * semanticScore + 30/100 * llmScore
        else
          40/100 * structuralScore + 15/100 * semanticScore +
            15/100 * llmScore + 30/100 * rv
  let finalResult := if threshold ≤ finalScore then Verdict.PASS else Verdict.FAIL
  let confidence := (llmConfidence + finalScore) / 2
  (finalScore, finalResult, confidence)

end Evaluator

/-! ### Semantic matcher and the result-validation branch — src/evaluation/semantic_match.py and evaluator.py -/

/-- The `expected_output` block stored with a ground-truth artifact entry. -/
structure ExpectedOutput where
  columns : List String
  rowCount : ℕ
  sampleRows : List (List SqlValue)
  executionTimeMs : ℚ
  deriving DecidableEq, Repr

/-- A raw ground-truth artifact entry as stored in the artifact JSON
(`natural_language`, `sql`, optional `complexity`, optional
`expected_output`). -/
structure RawGtQuery where
  naturalLanguage : String
  sql : String
  complexity : Option String
  expectedOutput : Option ExpectedOutput
  deriving DecidableEq, Repr

/-- An entry of the semantic matcher's index after `load_from_file`
normalization.  The Python dict built there has exactly the keys
`query_text`, `sql`, `complexity` and `query`; `expectedOutput` models what
`entry.get` of the key `expected_output` returns on that dict. -/
structure MatchEntry where
  queryText : String
  sql : String
  complexity : String
  expectedOutput : Option ExpectedOutput
  deriving DecidableEq, Repr

namespace SemanticMatcher

/-- Translated from `SemanticMatcher.load_from_file`: each raw entry is
normalized to a dict with exactly the keys `query_text`, `sql`, `complexity`
(defaulted to "simple") and `query` — the raw entry's `expected_output` is
not copied, so a later `.get` of `expected_output` on the normalized entry
yields `None`. -/
def normalizeGtEntry (q : RawGtQuery) : MatchEntry :=
  { queryText := q.naturalLanguage
    sql := q.sql
    complexity := q.complexity.getD "simple"
    expectedOutput := none }

end SemanticMatcher

/-- The three possible result-validation behaviours in Path A of
`Evaluator.evaluate`. -/
inductive ResultValidationBranch
  | gtOutput
  | sqlComparison
  | skipped
  deriving DecidableEq, Repr

/-- Translated from `Evaluator.evaluate`, step 5: with an agent DB URL, the
branch `validate_with_gt_output` (execute only the candidate SQL and compare
with the stored output) is taken when `gt_expected_output` is truthy,
otherwise `validate` (execute both candidate and reference SQL); without a
DB URL result validation is skipped. -/
def chooseResultValidationBranch (hasAgentDbUrl : Bool)
    (gtExpectedOutput : Option ExpectedOutput) : ResultValidationBranch :=
  if hasAgentDbUrl then
    match gtExpectedOutput with
    | some _ => .gtOutput
    | none => .sqlComparison
  else
    .skipped

/-! ### Poller — src/agent_platform/poller.py -/

/-- A row of an agent's query-log table, as selected by `_poll_agent` (the
timestamp column may be NULL). -/
structure LogRow where
  ts : Option ℕ
  queryText : String
  generatedSql : String
  deriving DecidableEq, Repr

namespace Poller

/-- Sort key for `ORDER BY <ts_col> ASC` (Postgres places NULLs last on an
ascending sort). -/
def tsKey (r : LogRow) : WithTop ℕ :=
  match r.ts with
  | some t => (t : WithTop ℕ)
  | none => ⊤

/-- Row order used by the poll query's ORDER BY clause. -/
def tsLe (a b : LogRow) : Prop := tsKey a ≤ tsKey b

instance : DecidableRel tsLe := fun a b => inferInstanceAs (Decidable (tsKey a ≤ tsKey b))

instance : IsTotal LogRow tsLe := ⟨fun _ _ => le_total _ _⟩

instance : IsTrans LogRow tsLe := ⟨fun _ _ _ => le_trans⟩

/-- The poll query's WHERE clause: all rows when the watermark is NULL,
otherwise `ts_col > watermark` (a SQL comparison against a NULL `ts` is not
true). -/
def rowPastWatermark (watermark : Option ℕ) (r : LogRow) : Bool :=
  match watermark with
  | none => true
  | some w =>
      match r.ts with
      | some t => decide (w < t)
      | none => false

/-- The rows fetched by `_poll_agent`:
`WHERE <ts> > watermark ORDER BY <ts> ASC LIMIT 100`. -/
def fetchRows (table : List LogRow) (watermark : Option ℕ) : List LogRow :=
  ((table.filter (rowPastWatermark watermark)).insertionSort tsLe).take 100

/-- The watermark after the per-row loop of `_poll_agent`:
`if ts and (new_watermark is None or ts > new_watermark)` updates the
running maximum; rows with a NULL timestamp leave it unchanged. -/
def newWatermark (watermark : Option ℕ) (rows : List LogRow) : Option ℕ :=
  rows.foldl
    (fun acc r =>
      match r.ts with
      | some t =>
          match acc with
          | none => some t
          | some w => if w < t then some t else acc
      | none => acc)
    watermark

/-- One poll of one agent (`_poll_agent`): the processed rows and the
watermark persisted afterwards (`_update_watermark` is called only when the
value changed; the stored value is the same either way). -/
def pollAgent (table : List LogRow) (watermark : Option ℕ) :
    List LogRow × Option ℕ :=
  let rows := fetchRows table watermark
  (rows, newWatermark watermark rows)

/-- Running maximum of the timestamps of `rows` starting from `w` (the shape
`newWatermark` takes once the watermark is present). -/
def foldMaxTs (w : ℕ) (rows : List LogRow) : ℕ :=
  rows.foldl
    (fun a r =>
      match r.ts with
      | some t => max a t
      | none => a)
    w

end Poller

/-! ### SDK ingest endpoint — src/api/main.py -/

/-- Body of a telemetry ingest request (`IngestRequest`). -/
structure IngestRequest where
  queryText : String
  agentType : String
  status : String
  sql : Option String
  executionTimeMs : Option ℚ
  deriving DecidableEq, Repr

/-- The row inserted synchronously into `monitoring.queries`. -/
structure StoredQueryRow where
  queryId : String
  queryText : String
  agentType : String
  status : String
  generatedSql : Option String
  executionTimeMs : Option ℚ
  deriving DecidableEq, Repr

/-- Outcome of the SDK ingest endpoint: HTTP 401, HTTP 500, or the success
response body together with the row written and the scheduled background
pipeline. -/
inductive SdkIngestOutcome
  | unauthorized (detail : String)
  | ingestFailed (detail : String)
  | ingested (responseStatus : String) (queryId : String)
      (storedRow : StoredQueryRow) (pipelineScheduled : Bool)
  deriving DecidableEq, Repr

/-- The query id minted by a successful ingest, if any. -/
def SdkIngestOutcome.mintedQueryId : SdkIngestOutcome → Option String
  | .ingested _ queryId _ _ => some queryId
  | _ => none

namespace SdkIngest

/-- Translated from `ingest_sdk_telemetry` (src/api/main.py).  `agentOfKey`
composes `hash_api_key` with the registry lookup
`get_agent_by_api_key_hash`, returning the registered agent name;
`hex8` models the fresh `uuid.uuid4().hex` truncated to 8 characters;
`insertOk` is whether the synchronous INSERT succeeds.  A missing or unknown
key yields 401; otherwise the request's `agent_type` is overridden with the
registered agent name, the query id is minted as
`"SDK-" + agent_name.upper() + "-" + hex8`, the row is inserted (failure
yields 500), the background pipeline is scheduled and the response is the
pair of status "ingested" and the query id. -/
def ingestSdkTelemetry (apiKeyHeader : Option String)
    (agentOfKey : String → Option String) (hex8 : String)
    (req : IngestRequest) (insertOk : Bool) : SdkIngestOutcome :=
  match apiKeyHeader with
  | none => .unauthorized "Missing X-API-Key header"
  | some key =>
      match agentOfKey key with
      | none => .unauthorized "Invalid API key"
      | some agentName =>
          let req' : IngestRequest := { req with agentType := agentName }
          let queryId := "SDK-" ++ upperS agentName ++ "-" ++ hex8
          if insertOk then
            .ingested "ingested" queryId
              { queryId := queryId, queryText := req'.queryText,
                agentType := req'.agentType, status := req'.status,
                generatedSql := req'.sql,
                executionTimeMs := req'.executionTimeMs } true
          else
            .ingestFailed "Ingest failed"

end SdkIngest

/-!
## Theorems

One theorem per claim (with counterexamples and witnesses where needed),
stated over the definitions above.
-/

/-- C1 counterexample: with structural 1.0, semantic 1.0, LLM 0.0, LLM
confidence 0.5 and result validation executed with score 0.0,
`_calculate_final_score` falls back to the legacy three-component weights
and returns final score 0.70 — not the 0.40·1 + 0.15·1 + 0.15·0 + 0.30·0 =
0.55 required by the claim's four-component weights; moreover the default
`EVALUATION_THRESHOLD` is 0.60, not 0.7. -/
theorem c1_counterexample_zero_result_validation :
    (Evaluator.calculateFinalScore (7/10) 1 1 0 (1/2) (some 0)).1 = 7/10 ∧
    ¬ ((Evaluator.calculateFinalScore (7/10) 1 1 0 (1/2) (some 0)).1
        = 40/100 * 1 + 15/100 * 1 + 15/100 * 0 + 30/100 * 0) ∧
    ¬ (Evaluator.defaultEvaluationThreshold = 7/10) := by
  refine ⟨?_, ?_, ?_⟩ <;>
    norm_num [Evaluator.calculateFinalScore, Evaluator.defaultEvaluationThreshold]

/-- C1 (amended): in `_calculate_final_score` the four-component weights
0.40/0.15/0.15/0.30 are used only when result validation produced a nonzero
score; a missing (None) or exactly-zero result-validation score falls back
to the legacy weights 0.60/0.10/0.30.  The verdict is PASS iff the final
score reaches the threshold (default 0.60), and the confidence is the
average of the LLM confidence and the final score. -/
theorem c1_final_score_weights :
    ∀ (threshold s sem llm conf : ℚ) (rv : Option ℚ),
      (Evaluator.calculateFinalScore threshold s sem llm conf rv).1
        = (if rv = none ∨ rv = some 0 then
            60/100 * s + 10/100 * sem + 30/100 * llm
          else
            40/100 * s + 15/100 * sem + 15/100 * llm + 30/100 * rv.getD 0) ∧
      ((Evaluator.calculateFinalScore threshold s sem llm conf rv).2.1 = .PASS ↔
        threshold ≤ (Evaluator.calculateFinalScore threshold s sem llm conf rv).1) ∧
      (Evaluator.calculateFinalScore threshold s sem llm conf rv).2.2
        = (conf + (Evaluator.calculateFinalScore threshold s sem llm conf rv).1) / 2 ∧
      Evaluator.defaultEvaluationThreshold = 60/100 := by
  intro threshold s sem llm conf rv
  refine ⟨?_, ?_, rfl, rfl⟩
  · rcases rv with _ | v
    · simp [Evaluator.calculateFinalScore]
    · rcases eq_or_ne v 0 with h | h <;>
        simp [Evaluator.calculateFinalScore, h]
  · have hiff : ∀ fs : ℚ,
        ((if threshold ≤ fs then Verdict.PASS else Verdict.FAIL) = Verdict.PASS ↔ threshold ≤ fs) := by
      intro fs
      split_ifs with h <;> simp [h]
    exact hiff _

/-- C2 counterexample: a stored baseline of dimension 3 against a current
embedding of dimension 2 — `detect` returns classification
`dimension_mismatch` with drift score 0 and no alert fires, but the second
component (the row handed to `_store_drift`) is `none`: no drift record is
written, contradicting the claim. -/
theorem c2_counterexample_record_not_written :
    (DriftDetector.detect (fun _ _ => 0) (3/10) (1/2) (some [0, 0, 1]) [1, 0]).1.driftClassification
        = .dimensionMismatch ∧
    (DriftDetector.detect (fun _ _ => 0) (3/10) (1/2) (some [0, 0, 1]) [1, 0]).1.driftScore = 0 ∧
    (DriftDetector.detect (fun _ _ => 0) (3/10) (1/2) (some [0, 0, 1]) [1, 0]).2 = none ∧
    highDriftAlertFired "success"
      (DriftDetector.detect (fun _ _ => 0) (3/10) (1/2) (some [0, 0, 1]) [1, 0]).1 = false :=
  ⟨rfl, rfl, by decide, by decide⟩

/-- C2 (amended): when the stored baseline's dimension differs from the
current embedding's, `detect` returns a result with classification
`dimension_mismatch`, drift score 0 and no anomaly, and no high-drift alert
fires — but it returns before calling `_store_drift`, so no drift record is
written for the query (a row is persisted only on the similarity path). -/
theorem c2_dimension_mismatch_behaviour :
    ∀ (sim : List ℚ → List ℚ → ℚ) (med high : ℚ) (b emb : List ℚ) (status : String),
      emb.length ≠ b.length →
      (DriftDetector.detect sim med high (some b) emb).1.driftClassification
          = .dimensionMismatch ∧
      (DriftDetector.detect sim med high (some b) emb).1.driftScore = 0 ∧
      (DriftDetector.detect sim med high (some b) emb).1.anomalyFlag = false ∧
      (DriftDetector.detect sim med high (some b) emb).2 = none ∧
      highDriftAlertFired status (DriftDetector.detect sim med high (some b) emb).1 = false := by
  intro sim med high b emb status h
  simp [DriftDetector.detect, h, highDriftAlertFired]

/-- Witness for the amended C2 theorem at dimensions 1 vs 2. -/
theorem c2_dimension_mismatch_behaviour_witness :
    ([1] : List ℚ).length ≠ ([0, 0] : List ℚ).length ∧
    (DriftDetector.detect (fun _ _ => 0) (3/10) (1/2) (some [0, 0]) [1]).1.driftClassification
      = .dimensionMismatch :=
  ⟨by decide,
    (c2_dimension_mismatch_behaviour (fun _ _ => 0) (3/10) (1/2) [0, 0] [1] "success"
      (by decide)).1⟩

/-- C3 counterexample: the SDK ingest endpoint mints
`query_id = "SDK-DEMAND-abcd1234"` for agent `demand` and suffix
`abcd1234`; the minted id does not start with `"INGEST-"` as the claim
requires. -/
theorem c3_counterexample_query_id_form :
    (SdkIngest.ingestSdkTelemetry (some "ak_demand_key") (fun _ => some "demand") "abcd1234"
        { queryText := "how many products in stock?", agentType := "ignored",
          status := "success", sql := some "SELECT 1", executionTimeMs := none }
        true).mintedQueryId = some "SDK-DEMAND-abcd1234" ∧
    isPrefB "INGEST-".data "SDK-DEMAND-abcd1234".data = false :=
  ⟨by decide, by decide⟩

/-- C3 (amended): the SDK ingest endpoint returns 401 for a missing or
unknown `X-API-Key`; on success it overrides the request's agent type with
the registered agent name, mints
`query_id = "SDK-" + upper(agent_name) + "-" + 8 hex characters`, inserts
the raw event synchronously (a DB failure yields 500), and responds with
status "ingested" and the query id. -/
theorem c3_sdk_ingest_behaviour :
    ∀ (agentOfKey : String → Option String) (hex8 : String) (req : IngestRequest)
      (insertOk : Bool),
      SdkIngest.ingestSdkTelemetry none agentOfKey hex8 req insertOk
        = .unauthorized "Missing X-API-Key header" ∧
      (∀ key, agentOfKey key = none →
        SdkIngest.ingestSdkTelemetry (some key) agentOfKey hex8 req insertOk
          = .unauthorized "Invalid API key") ∧
      (∀ key name, agentOfKey key = some name →
        SdkIngest.ingestSdkTelemetry (some key) agentOfKey hex8 req true
          = .ingested "ingested" ("SDK-" ++ upperS name ++ "-" ++ hex8)
              { queryId := "SDK-" ++ upperS name ++ "-" ++ hex8,
                queryText := req.queryText, agentType := name, status := req.status,
                generatedSql := req.sql, executionTimeMs := req.executionTimeMs } true ∧
        SdkIngest.ingestSdkTelemetry (some key) agentOfKey hex8 req false
          = .ingestFailed "Ingest failed") := by
  intro agentOfKey hex8 req insertOk
  refine ⟨rfl, fun key h => ?_, fun key name h => ⟨?_, ?_⟩⟩ <;>
    simp [SdkIngest.ingestSdkTelemetry, h]

/-- Witness for the amended C3 theorem: a keyed lookup that knows one key. -/
theorem c3_sdk_ingest_behaviour_witness :
    (fun k : String => if k = "good" then some "demand" else none) "bad" = none ∧
    SdkIngest.ingestSdkTelemetry (some "bad")
        (fun k : String => if k = "good" then some "demand" else none) "abcd1234"
        ⟨"q", "x", "success", none, none⟩ true
      = .unauthorized "Invalid API key" ∧
    (fun k : String => if k = "good" then some "demand" else none) "good" = some "demand" ∧
    SdkIngest.ingestSdkTelemetry (some "good")
        (fun k : String => if k = "good" then some "demand" else none) "abcd1234"
        ⟨"q", "x", "success", none, none⟩ true
      = .ingested "ingested" "SDK-DEMAND-abcd1234"
          ⟨"SDK-DEMAND-abcd1234", "q", "demand", "success", none, none⟩ true :=
  ⟨by decide,
    (c3_sdk_ingest_behaviour (fun k => if k = "good" then some "demand" else none)
      "abcd1234" ⟨"q", "x", "success", none, none⟩ true).2.1 "bad" (by decide),
    by decide,
    ((c3_sdk_ingest_behaviour (fun k => if k = "good" then some "demand" else none)
      "abcd1234" ⟨"q", "x", "success", none, none⟩ true).2.2 "good" "demand" (by decide)).1⟩

/-- C4 (code bug): `SemanticMatcher.load_from_file` normalizes every
artifact entry to a dict without the `expected_output` key, so the match
handed back to the evaluator never carries an expected output and the
`validate_with_gt_output` branch is unreachable: even for an artifact entry
with an expected output and a configured agent DB URL, the evaluator takes
the execute-both-SQLs branch (`validate`). -/
theorem c4_gt_output_branch_unreachable :
    (∀ raw : RawGtQuery, (SemanticMatcher.normalizeGtEntry raw).expectedOutput = none) ∧
    (∀ (raw : RawGtQuery) (hasDbUrl : Bool),
      chooseResultValidationBranch hasDbUrl (SemanticMatcher.normalizeGtEntry raw).expectedOutput
        = (if hasDbUrl then .sqlComparison else .skipped)) ∧
    (SemanticMatcher.normalizeGtEntry
        { naturalLanguage := "How many products are in stock?",
          sql := "SELECT COUNT(*) FROM products WHERE stock_levels > 0",
          complexity := some "simple",
          expectedOutput := some { columns := ["count"], rowCount := 1,
                                   sampleRows := [[.vNum 42]],
                                   executionTimeMs := 5 } }).expectedOutput = none ∧
    chooseResultValidationBranch true
        (SemanticMatcher.normalizeGtEntry
          { naturalLanguage := "How many products are in stock?",
            sql := "SELECT COUNT(*) FROM products WHERE stock_levels > 0",
            complexity := some "simple",
            expectedOutput := some { columns := ["count"], rowCount := 1,
                                     sampleRows := [[.vNum 42]],
                                     executionTimeMs := 5 } }).expectedOutput
      = .sqlComparison := by
  refine ⟨fun raw => rfl, fun raw hasDbUrl => ?_, rfl, rfl⟩
  cases hasDbUrl <;> rfl

/-- C5 (confirmed): `detect` scores drift as drift_score = 1 − similarity on
every detection that reaches the similarity computation (baseline present,
equal dimensions), with bands normal / medium / high exactly as claimed and
the anomaly flag set exactly on high; on the `no_baseline` and
`dimension_mismatch` paths the drift score is 0. -/
theorem c5_drift_score_and_bands :
    (∀ (sim : List ℚ → List ℚ → ℚ) (med high : ℚ) (baseline : Option (List ℚ))
       (emb : List ℚ),
      ((DriftDetector.detect sim med high baseline emb).1.driftClassification = .noBaseline ∨
       (DriftDetector.detect sim med high baseline emb).1.driftClassification
          = .dimensionMismatch) →
      (DriftDetector.detect sim med high baseline emb).1.driftScore = 0) ∧
    (∀ (sim : List ℚ → List ℚ → ℚ) (med high : ℚ) (b emb : List ℚ),
      emb.length = b.length →
      (DriftDetector.detect sim med high (some b) emb).1.driftScore
          = 1 - (DriftDetector.detect sim med high (some b) emb).1.similarityToBaseline ∧
      (DriftDetector.detect sim med high (some b) emb).1.similarityToBaseline = sim emb b ∧
      ((DriftDetector.detect sim med high (some b) emb).1.driftClassification = .normal ↔
        1 - med ≤ sim emb b) ∧
      ((DriftDetector.detect sim med high (some b) emb).1.driftClassification = .medium ↔
        (1 - high ≤ sim emb b ∧ sim emb b < 1 - med)) ∧
      ((DriftDetector.detect sim med high (some b) emb).1.driftClassification = .high ↔
        (sim emb b < 1 - med ∧ sim emb b < 1 - high)) ∧
      ((DriftDetector.detect sim med high (some b) emb).1.anomalyFlag = true ↔
        (DriftDetector.detect sim med high (some b) emb).1.driftClassification = .high)) := by
  constructor
  · intro sim med high baseline emb hcls
    rcases baseline with _ | b
    · rfl
    · by_cases hlen : emb.length ≠ b.length
      · simp [DriftDetector.detect, hlen]
      · exfalso
        rcases hcls with hcls | hcls <;>
          · revert hcls
            by_cases h1 : 1 - med ≤ sim emb b
            · simp [DriftDetector.detect, hlen, h1]
            · by_cases h2 : 1 - high ≤ sim emb b <;>
                simp [DriftDetector.detect, hlen, h1, h2]
  · intro sim med high b emb hlen
    have hcond : ¬ (emb.length ≠ b.length) := by simp [hlen]
    by_cases h1 : 1 - med ≤ sim emb b
    · have h1' : ¬ sim emb b < 1 - med := not_lt.2 h1
      simp [DriftDetector.detect, hcond, h1, h1']
    · have h1' : sim emb b < 1 - med := not_le.1 h1
      by_cases h2 : 1 - high ≤ sim emb b
      · have h2' : ¬ sim emb b < 1 - high := not_lt.2 h2
        simp [DriftDetector.detect, hcond, h1, h1', h2, h2']
      · have h2' : sim emb b < 1 - high := not_le.1 h2
        simp [DriftDetector.detect, hcond, h1, h1', h2, h2']

/-- Witness for C5: the no-baseline path at score 0, and the similarity path
at equal dimensions 1 = 1. -/
theorem c5_drift_score_and_bands_witness :
    ((DriftDetector.detect (fun _ _ => 0) 0 0 none []).1.driftClassification = .noBaseline ∨
      (DriftDetector.detect (fun _ _ => 0) 0 0 none []).1.driftClassification
        = .dimensionMismatch) ∧
    (DriftDetector.detect (fun _ _ => 0) 0 0 none []).1.driftScore = 0 ∧
    ([0] : List ℚ).length = ([1] : List ℚ).length ∧
    (DriftDetector.detect (fun _ _ => 0) 0 0 (some [1]) [0]).1.driftScore
      = 1 - (DriftDetector.detect (fun _ _ => 0) 0 0 (some [1]) [0]).1.similarityToBaseline :=
  ⟨Or.inl rfl,
    c5_drift_score_and_bands.1 (fun _ _ => 0) 0 0 none [] (Or.inl rfl),
    rfl,
    (c5_drift_score_and_bands.2 (fun _ _ => 0) 0 0 [1] [0] rfl).1⟩

/-- C6 (confirmed): the Path B final score is the weighted sum
0.45·structural + 0.30·intent + 0.25·pattern with the drift quality carrying
no weight (it is only recorded in the components); when the drift quality is
below 0.1 the veto forces FAIL with final score 0 and confidence 0
regardless of the three layer scores, and otherwise the verdict is PASS iff
the weighted sum reaches the threshold. -/
theorem c6_heuristic_weights_and_veto :
    ∀ threshold s i p dq : ℚ,
      (EvaluationManager.evaluateHeuristic threshold s i p dq).finalScore
        = (if dq < 1/10 then 0 else s * (45/100) + i * (30/100) + p * (25/100)) ∧
      (EvaluationManager.evaluateHeuristic threshold s i p dq).confidence
        = (if dq < 1/10 then 0 else s * (45/100) + i * (30/100) + p * (25/100)) ∧
      (EvaluationManager.evaluateHeuristic threshold s i p dq).finalResult
        = (if dq < 1/10 then .FAIL
           else if threshold ≤ s * (45/100) + i * (30/100) + p * (25/100) then .PASS
           else .FAIL) ∧
      (EvaluationManager.evaluateHeuristic threshold s i p dq).components
        = { structural := s, intent := i, pattern := p, drift := dq } := by
  intro threshold s i p dq
  simp only [EvaluationManager.evaluateHeuristic, EvaluationManager.structuralWeight,
    EvaluationManager.intentWeight, EvaluationManager.patternWeight]
  split_ifs <;> exact ⟨rfl, rfl, rfl, rfl⟩

/-- C7 counterexample: with duplicated column names the multisets
`[a, a]` and `[a]` differ, so the claim's multiset-based schema match fails
and demands score 0.1; the code compares sets, finds the schemas equal, and
two empty result sets then score 1.0. -/
theorem c7_counterexample_duplicate_columns :
    ResultComparator.specSchemaMatchMultisets ["a", "a"] ["a"] = false ∧
    (ResultComparator.compare (1/10000) ["a", "a"] [] ["a"] [] "" "").score = 1 ∧
    ¬ ((1 : ℚ) = 1/10) := by
  have hcs : ResultComparator.compareSchemas ["a", "a"] ["a"] = true := by decide
  refine ⟨by decide, ?_, by norm_num⟩
  norm_num [ResultComparator.compare, hcs, ResultComparator.compareUnordered,
    ResultComparator.compareOrdered, ResultComparator.detectOrdering]

/-- C7 (amended): the comparator's schema match is equality of the SETS of
lowercased, trimmed column names (duplicates collapse; the claim said
multisets); a schema mismatch scores exactly 0.1, equal schemas with unequal
row counts score exactly 0.3, and otherwise the score follows the
content-match-rate ladder 1.0 / 0.95 / 0.80 / raw rate; two empty result
sets with set-equal columns score 1.0 (and with set-differing columns 0.1 by
the mismatch rule). -/
theorem c7_comparator_scoring :
    ∀ (eps : ℚ) (cols1 cols2 : List String) (rows1 rows2 : List (List SqlValue))
      (sql1 sql2 : String),
      (ResultComparator.compare eps cols1 rows1 cols2 rows2 sql1 sql2).schemaMatch
        = ResultComparator.compareSchemas cols1 cols2 ∧
      (ResultComparator.compareSchemas cols1 cols2 = false →
        (ResultComparator.compare eps cols1 rows1 cols2 rows2 sql1 sql2).score = 1/10) ∧
      (ResultComparator.compareSchemas cols1 cols2 = true → rows1.length ≠ rows2.length →
        (ResultComparator.compare eps cols1 rows1 cols2 rows2 sql1 sql2).score = 3/10) ∧
      (ResultComparator.compareSchemas cols1 cols2 = true → rows1.length = rows2.length →
        (ResultComparator.compare eps cols1 rows1 cols2 rows2 sql1 sql2).score
          = (if 99/100 ≤
                (ResultComparator.compare eps cols1 rows1 cols2 rows2 sql1 sql2).contentMatchRate
             then 1
             else if 95/100 ≤
                (ResultComparator.compare eps cols1 rows1 cols2 rows2 sql1 sql2).contentMatchRate
             then 95/100
             else if 4/5 ≤
                (ResultComparator.compare eps cols1 rows1 cols2 rows2 sql1 sql2).contentMatchRate
             then 4/5
             else (ResultComparator.compare eps cols1 rows1 cols2 rows2 sql1 sql2).contentMatchRate)) ∧
      (rows1 = [] → rows2 = [] → ResultComparator.compareSchemas cols1 cols2 = true →
        (ResultComparator.compare eps cols1 rows1 cols2 rows2 sql1 sql2).score = 1) := by
  intro eps cols1 cols2 rows1 rows2 sql1 sql2
  rcases hs : ResultComparator.compareSchemas cols1 cols2 with _ | _
  · refine ⟨?_, ?_, ?_, ?_, ?_⟩ <;>
      simp [ResultComparator.compare, hs]
  · by_cases hl : rows1.length = rows2.length
    · refine ⟨?_, ?_, ?_, ?_, ?_⟩
      · simp only [ResultComparator.compare, hs, Bool.not_true, Bool.false_eq_true, if_false,
          hl, ne_eq, not_true_eq_false]
        split_ifs <;> rfl
      · intro h; simp [hs] at h
      · intro _ h; exact absurd hl h
      · intro _ _
        simp only [ResultComparator.compare, hs, Bool.not_true, Bool.false_eq_true, if_false,
          hl, ne_eq, not_true_eq_false]
        split_ifs <;> rfl
      · intro h1 h2 _
        subst h1; subst h2
        have hrate : ∀ om : Bool,
            (if om then ResultComparator.compareOrdered eps [] []
             else ResultComparator.compareUnordered eps [] []) = 1 := by
          intro om
          cases om <;>
            simp [ResultComparator.compareOrdered, ResultComparator.compareUnordered]
        simp only [ResultComparator.compare, hs, Bool.not_true, Bool.false_eq_true, if_false,
          ne_eq, not_true_eq_false, hrate]
        norm_num
    · refine ⟨?_, ?_, ?_, ?_, ?_⟩
      · simp [ResultComparator.compare, hs, hl]
      · intro h; simp [hs] at h
      · intro _ _; simp [ResultComparator.compare, hs, hl]
      · intro _ h; exact absurd h hl
      · intro h1 h2 _; subst h1; subst h2; exact absurd rfl hl

/-- Witness for the amended C7 theorem: differing singleton columns score
0.1; equal empty result sets score 1.0. -/
theorem c7_comparator_scoring_witness :
    ResultComparator.compareSchemas ["a"] ["b"] = false ∧
    (ResultComparator.compare (1/10000) ["a"] [] ["b"] [] "" "").score = 1/10 ∧
    (([] : List (List SqlValue)) = []) ∧
    ResultComparator.compareSchemas ["count"] ["count"] = true ∧
    (ResultComparator.compare (1/10000) ["count"] [] ["count"] [] "" "").score = 1 :=
  ⟨by decide,
    (c7_comparator_scoring (1/10000) ["a"] ["b"] [] [] "" "").2.1 (by decide),
    rfl,
    by decide,
    (c7_comparator_scoring (1/10000) ["count"] ["count"] [] [] "" "").2.2.2.2 rfl rfl
      (by decide)⟩

/-- C8 (confirmed): `StructuralValidator.validate` always scores 0, 0.5 or
1.0 and requests classification exactly when the EXPLAIN stage reported one
of the classifiable error types SYNTAX_ERROR, UNDEFINED_TABLE,
UNDEFINED_COLUMN; whenever classification is requested, `Evaluator.evaluate`
halts at the structural gate: it persists a FAIL evaluation with final score
0 and confidence 0, invokes the error classifier (when the store returned an
id), and does not proceed to any later evaluation step. -/
theorem c8_structural_gate_behaviour :
    (∀ (explain : ExplainOutcome) (schemaCheck : Bool × List String),
      ((StructuralValidator.validate explain schemaCheck).score = 0 ∨
       (StructuralValidator.validate explain schemaCheck).score = 1/2 ∨
       (StructuralValidator.validate explain schemaCheck).score = 1) ∧
      ((StructuralValidator.validate explain schemaCheck).requiresClassification = true ↔
        ((StructuralValidator.validate explain schemaCheck).errorType = some .synErr ∨
         (StructuralValidator.validate explain schemaCheck).errorType = some .undefinedTable ∨
         (StructuralValidator.validate explain schemaCheck).errorType = some .undefinedColumn))) ∧
    (∀ (sv : StructuralValidationResult) (storeSucceeds : Bool),
      sv.requiresClassification = true →
      Evaluator.structuralGate sv storeSucceeds = .halt .FAIL 0 0 true storeSucceeds) := by
  constructor
  · intro explain schemaCheck
    rcases explain with _ | ⟨et, msg⟩
    · rcases schemaCheck with ⟨b, errs⟩
      cases b <;> simp [StructuralValidator.validate]
    · rcases et with _ | e
      · simp [StructuralValidator.validate]
      · rcases e <;> simp [StructuralValidator.validate]
  · intro sv storeSucceeds h
    simp [Evaluator.structuralGate, h]

/-- Witness for C8: a syntax-error outcome requests classification and the
evaluator halts with a stored FAIL and a classifier call. -/
theorem c8_structural_gate_behaviour_witness :
    (StructuralValidator.validate (.failed (some .synErr) "invalid input near FROM")
        (true, [])).requiresClassification = true ∧
    Evaluator.structuralGate
        (StructuralValidator.validate (.failed (some .synErr) "invalid input near FROM")
          (true, [])) true
      = .halt .FAIL 0 0 true true :=
  ⟨rfl,
    c8_structural_gate_behaviour.2
      (StructuralValidator.validate (.failed (some .synErr) "invalid input near FROM")
        (true, [])) true rfl⟩

/-- Auxiliary for C9: with a present watermark, `newWatermark` computes the
running maximum of the processed timestamps. -/
theorem newWatermark_some_eq_foldMaxTs (rows : List LogRow) (w : ℕ) :
    Poller.newWatermark (some w) rows = some (Poller.foldMaxTs w rows) := by
  induction rows generalizing w with
  | nil => rfl
  | cons r rs ih =>
      rcases hr : r.ts with _ | t
      · simpa [Poller.newWatermark, Poller.foldMaxTs, hr] using ih w
      · have hstep : (if w < t then some t else some w) = some (max w t) := by
          rcases lt_or_ge w t with h | h
          · simp [h, Nat.max_eq_right h.le]
          · simp [Nat.not_lt.2 h, Nat.max_eq_left h]
        calc Poller.newWatermark (some w) (r :: rs)
            = Poller.newWatermark (if w < t then some t else some w) rs := by
              simp [Poller.newWatermark, hr]
          _ = Poller.newWatermark (some (max w t)) rs := by rw [hstep]
          _ = some (Poller.foldMaxTs (max w t) rs) := ih (max w t)
          _ = some (Poller.foldMaxTs w (r :: rs)) := by
              simp [Poller.foldMaxTs, hr]

/-- Auxiliary for C9: the running maximum never decreases below its seed. -/
theorem le_foldMaxTs (rows : List LogRow) (w : ℕ) : w ≤ Poller.foldMaxTs w rows := by
  induction rows generalizing w with
  | nil => exact le_refl w
  | cons r rs ih =>
      rcases hr : r.ts with _ | t
      · simpa [Poller.foldMaxTs, hr] using ih w
      · have h1 : w ≤ max w t := le_max_left w t
        have h2 : max w t ≤ Poller.foldMaxTs (max w t) rs := ih (max w t)
        have : Poller.foldMaxTs w (r :: rs) = Poller.foldMaxTs (max w t) rs := by
          simp [Poller.foldMaxTs, hr]
        rw [this]
        exact h1.trans h2

/-- Auxiliary for C9: the running maximum bounds every processed timestamp. -/
theorem ts_le_foldMaxTs (rows : List LogRow) (w : ℕ) :
    ∀ r ∈ rows, ∀ t, r.ts = some t → t ≤ Poller.foldMaxTs w rows := by
  induction rows generalizing w with
  | nil => intro r hr; cases hr
  | cons q rs ih =>
      intro r hr t ht
      rcases hq : q.ts with _ | u
      · have hfold : Poller.foldMaxTs w (q :: rs) = Poller.foldMaxTs w rs := by
          simp [Poller.foldMaxTs, hq]
        rcases List.mem_cons.1 hr with rfl | hr'
        · rw [hq] at ht; cases ht
        · rw [hfold]; exact ih w r hr' t ht
      · have hfold : Poller.foldMaxTs w (q :: rs) = Poller.foldMaxTs (max w u) rs := by
          simp [Poller.foldMaxTs, hq]
        rcases List.mem_cons.1 hr with rfl | hr'
        · rw [hq] at ht
          injection ht with ht'
          subst ht'
          rw [hfold]
          exact (le_max_right w u).trans (le_foldMaxTs rs (max w u))
        · rw [hfold]; exact ih (max w u) r hr' t ht

/-- Auxiliary for C9: the running maximum is either the seed itself or one of
the processed timestamps. -/
theorem foldMaxTs_attained (rows : List LogRow) (w : ℕ) :
    Poller.foldMaxTs w rows = w ∨ ∃ r ∈ rows, r.ts = some (Poller.foldMaxTs w rows) := by
  induction rows generalizing w with
  | nil => exact Or.inl rfl
  | cons q rs ih =>
      rcases hq : q.ts with _ | u
      · have hfold : Poller.foldMaxTs w (q :: rs) = Poller.foldMaxTs w rs := by
          simp [Poller.foldMaxTs, hq]
        rcases ih w with h | ⟨r, hr, ht⟩
        · exact Or.inl (hfold.trans h)
        · exact Or.inr ⟨r, List.mem_cons_of_mem q hr, by rw [hfold]; exact ht⟩
      · have hfold : Poller.foldMaxTs w (q :: rs) = Poller.foldMaxTs (max w u) rs := by
          simp [Poller.foldMaxTs, hq]
        rcases ih (max w u) with h | ⟨r, hr, ht⟩
        · rcases Nat.le_total u w with hu | hu
          · exact Or.inl (by rw [hfold, h, Nat.max_eq_left hu])
          · refine Or.inr ⟨q, List.mem_cons_self q rs, ?_⟩
            rw [hfold, h, Nat.max_eq_right hu, hq]
        · exact Or.inr ⟨r, List.mem_cons_of_mem q hr, by rw [hfold]; exact ht⟩

/-- C9 (confirmed): with a stored watermark `w`, one poll cycle fetches only
rows whose timestamp is strictly greater than `w` (ascending by timestamp,
at most 100 rows), and afterwards the watermark is some `w' ≥ w` that bounds
every processed timestamp and is itself either `w` (nothing to advance past)
or the timestamp of a processed row — so the watermark is monotone across
cycles and no row with `ts ≤ w` is ever re-read. -/
theorem c9_poller_watermark :
    ∀ (table : List LogRow) (w : ℕ),
      (∀ r ∈ Poller.fetchRows table (some w), ∃ t, r.ts = some t ∧ w < t) ∧
      (Poller.fetchRows table (some w)).length ≤ 100 ∧
      List.Sorted Poller.tsLe (Poller.fetchRows table (some w)) ∧
      (∃ w', Poller.newWatermark (some w) (Poller.fetchRows table (some w)) = some w' ∧
        w ≤ w' ∧
        (∀ r ∈ Poller.fetchRows table (some w), ∀ t, r.ts = some t → t ≤ w') ∧
        (w' = w ∨ ∃ r ∈ Poller.fetchRows table (some w), r.ts = some w')) := by
  intro table w
  have hmem : ∀ r ∈ Poller.fetchRows table (some w),
      r ∈ table.filter (Poller.rowPastWatermark (some w)) := by
    intro r hr
    have h1 : r ∈ (table.filter (Poller.rowPastWatermark (some w))).insertionSort Poller.tsLe :=
      List.mem_of_mem_take hr
    exact ((List.perm_insertionSort Poller.tsLe _).mem_iff).1 h1
  refine ⟨?_, ?_, ?_, ?_⟩
  · intro r hr
    have h2 : Poller.rowPastWatermark (some w) r = true := List.of_mem_filter (hmem r hr)
    rcases ht : r.ts with _ | t
    · rw [Poller.rowPastWatermark, ht] at h2
      cases h2
    · rw [Poller.rowPastWatermark, ht] at h2
      exact ⟨t, rfl, of_decide_eq_true h2⟩
  · calc (Poller.fetchRows table (some w)).length
        = min 100 ((table.filter (Poller.rowPastWatermark (some w))).insertionSort
            Poller.tsLe).length := List.length_take ..
      _ ≤ 100 := min_le_left ..
  · exact List.Pairwise.sublist (List.take_sublist ..)
      (List.sorted_insertionSort Poller.tsLe (table.filter (Poller.rowPastWatermark (some w))))
  · refine ⟨Poller.foldMaxTs w (Poller.fetchRows table (some w)),
      newWatermark_some_eq_foldMaxTs .., le_foldMaxTs .., ?_, ?_⟩
    · exact ts_le_foldMaxTs (Poller.fetchRows table (some w)) w
    · exact foldMaxTs_attained (Poller.fetchRows table (some w)) w

/-- Witness for C9: a three-row table polled from watermark 2 fetches the
rows past 2 and advances the watermark to 5. -/
theorem c9_poller_watermark_witness :
    (Poller.fetchRows
        [⟨some 5, "q1", "s1"⟩, ⟨some 3, "q2", "s2"⟩, ⟨some 1, "q3", "s3"⟩] (some 2)).length
      ≤ 100 ∧
    (∃ w', Poller.newWatermark (some 2)
        (Poller.fetchRows
          [⟨some 5, "q1", "s1"⟩, ⟨some 3, "q2", "s2"⟩, ⟨some 1, "q3", "s3"⟩] (some 2))
        = some w' ∧ 2 ≤ w') := by
  refine ⟨(c9_poller_watermark
      [⟨some 5, "q1", "s1"⟩, ⟨some 3, "q2", "s2"⟩, ⟨some 1, "q3", "s3"⟩] 2).2.1, ?_⟩
  obtain ⟨w', h1, h2, -, -⟩ := (c9_poller_watermark
      [⟨some 5, "q1", "s1"⟩, ⟨some 3, "q2", "s2"⟩, ⟨some 1, "q3", "s3"⟩] 2).2.2.2
  exact ⟨w', h1, h2⟩

/-- C10 (confirmed): for an agent with no stored baseline, `detect` returns
classification `no_baseline` with drift score 0, the drift layer therefore
reports quality 1.0, and the Path B veto can never fire: the final score is
exactly the weighted sum of the structural, intent and pattern layers and
the verdict is PASS iff it reaches the threshold — a junk query from a
baseline-less agent is never forced to FAIL by drift. -/
theorem c10_no_baseline_no_veto :
    ∀ (sim : List ℚ → List ℚ → ℚ) (med high threshold s i p : ℚ) (emb : List ℚ),
      (DriftDetector.detect sim med high none emb).1.driftClassification = .noBaseline ∧
      (DriftDetector.detect sim med high none emb).1.driftScore = 0 ∧
      DriftLayer.evaluate none (some (DriftDetector.detect sim med high none emb).1) = 1 ∧
      (EvaluationManager.evaluateHeuristicWithDetector sim med high threshold s i p
          none emb).finalScore
        = s * (45/100) + i * (30/100) + p * (25/100) ∧
      (EvaluationManager.evaluateHeuristicWithDetector sim med high threshold s i p
          none emb).confidence
        = s * (45/100) + i * (30/100) + p * (25/100) ∧
      ((EvaluationManager.evaluateHeuristicWithDetector sim med high threshold s i p
          none emb).finalResult = .PASS ↔
        threshold ≤ s * (45/100) + i * (30/100) + p * (25/100)) := by
  intro sim med high threshold s i p emb
  have hdl : DriftLayer.evaluate none (some (DriftDetector.detect sim med high none emb).1)
      = 1 := by
    simp [DriftLayer.evaluate, DriftDetector.detect]
  have hveto : ¬ ((1 : ℚ) < 1/10) := by norm_num
  have hmain : EvaluationManager.evaluateHeuristicWithDetector sim med high threshold s i p
      none emb = EvaluationManager.evaluateHeuristic threshold s i p 1 := by
    rw [EvaluationManager.evaluateHeuristicWithDetector, hdl]
  refine ⟨rfl, rfl, hdl, ?_, ?_, ?_⟩
  · rw [hmain]
    simp only [EvaluationManager.evaluateHeuristic, EvaluationManager.structuralWeight,
      EvaluationManager.intentWeight, EvaluationManager.patternWeight, if_neg hveto]
  · rw [hmain]
    simp only [EvaluationManager.evaluateHeuristic, EvaluationManager.structuralWeight,
      EvaluationManager.intentWeight, EvaluationManager.patternWeight, if_neg hveto]
  · rw [hmain]
    simp only [EvaluationManager.evaluateHeuristic, EvaluationManager.structuralWeight,
      EvaluationManager.intentWeight, EvaluationManager.patternWeight, if_neg hveto]
    split_ifs with h <;> simp [h]
